import Mathlib

/-!
Verification of the RFV customer-segmentation script `Entrega_RFV.py`.

The script reads a purchases table (columns `ID_cliente`, `DiaCompra`,
`CodigoCompra`, `ValorTotal`), computes per-customer Recency / Frequency /
Value indicators, classifies each indicator into quartile letters A-D, lets
the user filter the classified table by one letter per indicator, and keeps a
session-scoped dictionary of free-text comments keyed by the three-letter
composite code.

The embedding below models purchase dates as whole-day integers (the script
works at day granularity: `pd.Timedelta(days=1)`, `.days`), monetary amounts
as rationals, and a pandas DataFrame as a list of records.  Up to the
classification step the `ID_cliente` index of the RFV table is carried as the
`id_cliente` field of each record; the filtering stage, whose behaviour
depends on the index (`reset_index(drop=True)` discards the `ID_cliente`
labels), models the index explicitly as a label attached to each row's
column data.
-/

/-- Inner quartile dictionary: the three entries `q_dict[col][0.25]`,
`q_dict[col][0.5]`, `q_dict[col][0.75]` of the dictionary produced by
`df_RFV.quantile([0.25, 0.5, 0.75])` (source lines 217-219). -/
structure QDict where
  q25 : ℚ
  q50 : ℚ
  q75 : ℚ
  deriving DecidableEq

/-- Translation of `recencia_class(x, r, q_dict)` (source lines 41-49):
sequential comparisons of `x` against the 25th, 50th and 75th percentile of
column `r`, better letters for smaller values. -/
def recencia_class (x : ℚ) (r : String) (q_dict : String → QDict) : String :=
  if x ≤ (q_dict r).q25 then "A"
  else if x ≤ (q_dict r).q50 then "B"
  else if x ≤ (q_dict r).q75 then "C"
  else "D"

/-- Translation of `frequencia_class(x, f, q_dict)` (source lines 52-60):
same breakpoints as `recencia_class` but letters assigned in the opposite
order, better letters for larger values. -/
def frequencia_class (x : ℚ) (f : String) (q_dict : String → QDict) : String :=
  if x ≤ (q_dict f).q25 then "D"
  else if x ≤ (q_dict f).q50 then "C"
  else if x ≤ (q_dict f).q75 then "B"
  else "A"

/-- Alphabetical rank of a class letter: A before B before C before D. -/
def letterRank (s : String) : ℕ :=
  if s = "A" then 0
  else if s = "B" then 1
  else if s = "C" then 2
  else if s = "D" then 3
  else 4

/-- Order-reversing swap on class letters: A with D, B with C. -/
def flipClass (s : String) : String :=
  if s = "A" then "D"
  else if s = "B" then "C"
  else if s = "C" then "B"
  else if s = "D" then "A"
  else s

/-- C1: on a quartile table with ordered breakpoints, `recencia_class` returns
"A" exactly on values up to the 25th percentile, "B" exactly strictly between
the 25th and up to the 50th, "C" strictly between the 50th and up to the
75th, and "D" above the 75th; `frequencia_class` returns "D", "C", "B", "A"
on the same four intervals, so a value sitting exactly on a breakpoint gets
the better letter for recency and the worse letter for frequency/value. -/
theorem quartile_class_characterization (q_dict : String → QDict) (k : String) (x : ℚ)
    (h1 : (q_dict k).q25 ≤ (q_dict k).q50) (h2 : (q_dict k).q50 ≤ (q_dict k).q75) :
    (recencia_class x k q_dict = "A" ↔ x ≤ (q_dict k).q25) ∧
    (recencia_class x k q_dict = "B" ↔ (q_dict k).q25 < x ∧ x ≤ (q_dict k).q50) ∧
    (recencia_class x k q_dict = "C" ↔ (q_dict k).q50 < x ∧ x ≤ (q_dict k).q75) ∧
    (recencia_class x k q_dict = "D" ↔ (q_dict k).q75 < x) ∧
    (frequencia_class x k q_dict = "D" ↔ x ≤ (q_dict k).q25) ∧
    (frequencia_class x k q_dict = "C" ↔ (q_dict k).q25 < x ∧ x ≤ (q_dict k).q50) ∧
    (frequencia_class x k q_dict = "B" ↔ (q_dict k).q50 < x ∧ x ≤ (q_dict k).q75) ∧
    (frequencia_class x k q_dict = "A" ↔ (q_dict k).q75 < x) := by
  unfold recencia_class frequencia_class
  split_ifs with ha hb hc <;>
    refine ⟨?_, ?_, ?_, ?_, ?_, ?_, ?_, ?_⟩ <;>
    simp_all <;> intros <;> linarith

/-- Constant quartile table used to instantiate classifier theorems. -/
def qd0 : String → QDict := fun _ => ⟨1, 2, 3⟩

/-- Witness for C1 at the table 1/2/3 and the value 2 (second interval). -/
theorem quartile_class_characterization_witness :
    recencia_class 2 ("Recencia") qd0 = "B" :=
  ((quartile_class_characterization qd0 ("Recencia") 2 (by norm_num [qd0])
      (by norm_num [qd0])).2.1).mpr (by norm_num [qd0])

/-- C5: for a fixed quartile table, `recencia_class` is non-decreasing in its
input under the alphabetical order of letters, and `frequencia_class` is
non-increasing: a larger frequency or value gets an alphabetically
smaller-or-equal (better or equal) letter. -/
theorem quartile_class_monotone (q_dict : String → QDict) (k : String) (x1 x2 : ℚ)
    (h : x1 < x2) :
    letterRank (recencia_class x1 k q_dict) ≤ letterRank (recencia_class x2 k q_dict) ∧
    letterRank (frequencia_class x2 k q_dict) ≤ letterRank (frequencia_class x1 k q_dict) := by
  unfold recencia_class frequencia_class
  split_ifs <;> first
    | exact ⟨by decide, by decide⟩
    | (exfalso; linarith)

/-- Witness for C5 at the table 1/2/3 and the pair 2 < 5. -/
theorem quartile_class_monotone_witness :
    letterRank (recencia_class 2 ("Valor") qd0) ≤ letterRank (recencia_class 5 ("Valor") qd0) ∧
    letterRank (frequencia_class 5 ("Valor") qd0) ≤ letterRank (frequencia_class 2 ("Valor") qd0) :=
  quartile_class_monotone qd0 ("Valor") 2 5 (by norm_num)

/-- C10: for every input, column key and quartile table, ties included, the
letter given by `recencia_class` is the order-reversed letter given by
`frequencia_class` (A swaps with D, B swaps with C). -/
theorem recencia_class_eq_flip_frequencia_class (q_dict : String → QDict) (k : String) (x : ℚ) :
    recencia_class x k q_dict = flipClass (frequencia_class x k q_dict) := by
  unfold recencia_class frequencia_class flipClass
  split_ifs <;> simp_all

/-- One row of the uploaded purchases table `df_compras` (source lines
126-140): customer id, purchase date as a whole-day number, purchase code
and monetary amount. -/
structure Compra where
  id_cliente : ℕ
  diaCompra : ℤ
  codigoCompra : ℕ
  valorTotal : ℚ
  deriving DecidableEq

/-- Maximum of a list of day numbers, `none` on the empty list (pandas
`Series.max` yields `NaT` there). -/
def listMax : List ℤ → Option ℤ
  | [] => none
  | x :: xs => some (xs.foldl max x)

theorem le_foldl_max (xs : List ℤ) (a : ℤ) : a ≤ xs.foldl max a := by
  induction xs generalizing a with
  | nil => simp
  | cons y ys ih =>
    simpa using le_trans (le_max_left a y) (ih (max a y))

theorem mem_le_foldl_max (xs : List ℤ) (a x : ℤ) (hx : x ∈ xs) : x ≤ xs.foldl max a := by
  induction xs generalizing a with
  | nil => cases hx
  | cons y ys ih =>
    rcases List.mem_cons.mp hx with h | h
    · subst h
      simpa using le_trans (le_max_right a x) (le_foldl_max ys (max a x))
    · simpa using ih (max a y) h

theorem foldl_max_mem (xs : List ℤ) (a : ℤ) : xs.foldl max a = a ∨ xs.foldl max a ∈ xs := by
  induction xs generalizing a with
  | nil => left; rfl
  | cons y ys ih =>
    rcases ih (max a y) with h | h
    · rcases max_choice a y with hm | hm
      · left; simpa [hm] using h
      · right; simp only [List.foldl_cons]
        rw [h, hm]; exact List.mem_cons_self y ys
    · right; exact List.mem_cons_of_mem y (by simpa using h)

theorem listMax_spec (l : List ℤ) (hl : l ≠ []) :
    ∃ m : ℤ, listMax l = some m ∧ m ∈ l ∧ ∀ x ∈ l, x ≤ m := by
  match l with
  | [] => exact absurd rfl hl
  | x :: xs =>
    refine ⟨xs.foldl max x, rfl, ?_, ?_⟩
    · rcases foldl_max_mem xs x with h | h
      · rw [h]; exact List.mem_cons_self x xs
      · exact List.mem_cons_of_mem x h
    · intro y hy
      rcases List.mem_cons.mp hy with h | h
      · subst h; exact le_foldl_max xs y
      · exact mem_le_foldl_max xs x y h

/-- Rows of the purchases table belonging to one customer: the groups formed
by `groupby("ID_cliente")` (source lines 176, 191-196, 200-205). -/
def comprasDe (df : List Compra) (c : ℕ) : List Compra :=
  df.filter (fun t => t.id_cliente == c)

/-- The distinct customer ids of the purchases table: the keys of the
`groupby` result. -/
def clientes (df : List Compra) : List ℕ :=
  (df.map Compra.id_cliente).dedup

/-- Translation of `dia_atual = df_compras["DiaCompra"].max() +
pd.Timedelta(days=1)` (source line 173). -/
def dia_atual (df : List Compra) : Option ℤ :=
  (listMax (df.map Compra.diaCompra)).map (· + 1)

/-- Date of the last purchase of one customer, `DiaUltimaCompra` of
`df_recencia` (source lines 176-177); the default is never reached for a
customer that occurs in the table. -/
def custMaxDate (df : List Compra) (c : ℕ) : ℤ :=
  (listMax ((comprasDe df c).map Compra.diaCompra)).getD 0

/-- Per-customer purchase count, `df_frequencia` (source lines 191-197):
`groupby("ID_cliente").count()` over the `CodigoCompra` column counts the
rows of the group. -/
def frequencia (df : List Compra) (c : ℕ) : ℕ :=
  (comprasDe df c).length

/-- Per-customer total spend, `df_valor` (source lines 200-206):
`groupby("ID_cliente").sum()` over the `ValorTotal` column accumulates the
amounts of the group in one pass. -/
def valor (df : List Compra) (c : ℕ) : ℚ :=
  (comprasDe df c).foldl (fun acc t => acc + t.valorTotal) 0

/-- One row of the final indicator table `df_RFV` (source lines 209-215):
the merges of `df_recencia`, `df_frequencia` and `df_valor` are on the
identical key set `ID_cliente`, so each customer gets exactly one row
carrying its three indicators. -/
structure RFVRecord where
  id_cliente : ℕ
  Recencia : ℤ
  Frequencia : ℕ
  Valor : ℚ
  deriving DecidableEq

/-- Translation of the construction of `df_RFV` (source lines 169-215): one
row per distinct customer with recency `dia_atual - DiaUltimaCompra` in days
(lines 180-182), frequency and value as above.  On an empty table
`dia_atual` is `NaT` and no row is produced. -/
def df_RFV (df : List Compra) : List RFVRecord :=
  match dia_atual df with
  | none => []
  | some d =>
    (clientes df).map (fun c => ⟨c, d - custMaxDate df c, frequencia df c, valor df c⟩)

theorem mem_clientes (df : List Compra) (c : ℕ) :
    c ∈ clientes df ↔ ∃ t ∈ df, t.id_cliente = c := by
  unfold clientes
  rw [List.mem_dedup, List.mem_map]

theorem comprasDe_ne_nil (df : List Compra) (c : ℕ) (hc : c ∈ clientes df) :
    comprasDe df c ≠ [] := by
  obtain ⟨t, ht, hid⟩ := (mem_clientes df c).mp hc
  have : t ∈ comprasDe df c := by
    unfold comprasDe
    exact List.mem_filter.mpr ⟨ht, by simpa using hid⟩
  exact List.ne_nil_of_mem this

theorem df_RFV_eq_map (df : List Compra) (d : ℤ) (hd : dia_atual df = some d) :
    df_RFV df =
      (clientes df).map (fun c => ⟨c, d - custMaxDate df c, frequencia df c, valor df c⟩) := by
  unfold df_RFV
  rw [hd]

/-- C2: for a non-empty purchases table, the RFV table has exactly one row
per distinct customer id occurring in the input (no row for an absent
customer), and the frequency of each row counts every purchase row carrying
that customer id, duplicate purchase codes included. -/
theorem rfv_one_row_per_customer (df : List Compra) (hdf : df ≠ []) :
    ((df_RFV df).map RFVRecord.id_cliente).Nodup ∧
    (∀ c : ℕ, c ∈ (df_RFV df).map RFVRecord.id_cliente ↔ ∃ t ∈ df, t.id_cliente = c) ∧
    (∀ rec ∈ df_RFV df, rec.Frequencia = df.countP (fun t => t.id_cliente == rec.id_cliente)) := by
  obtain ⟨m, hm, -, -⟩ := listMax_spec (df.map Compra.diaCompra) (by simpa using hdf)
  have hda : dia_atual df = some (m + 1) := by
    unfold dia_atual
    rw [hm]
    rfl
  have hids : (df_RFV df).map RFVRecord.id_cliente = clientes df := by
    rw [df_RFV_eq_map df (m + 1) hda, List.map_map]
    exact List.map_id _
  refine ⟨?_, ?_, ?_⟩
  · rw [hids]
    exact List.nodup_dedup _
  · intro c
    rw [hids]
    exact mem_clientes df c
  · intro rec hrec
    rw [df_RFV_eq_map df (m + 1) hda] at hrec
    obtain ⟨c, -, rfl⟩ := List.mem_map.mp hrec
    simp only [frequencia, comprasDe, List.countP_eq_length_filter]

/-- C3: for a non-empty purchases table the reference date is the maximum
purchase date plus one day, each row's recency is the reference date minus
that customer's own last purchase date in whole days, and therefore every
row has recency at least 1 — in particular the rows of the customers holding
the globally most recent purchase. -/
theorem recencia_reference_date (df : List Compra) (hdf : df ≠ []) :
    ∃ m : ℤ, listMax (df.map Compra.diaCompra) = some m ∧
      m ∈ df.map Compra.diaCompra ∧ (∀ t ∈ df, t.diaCompra ≤ m) ∧
      dia_atual df = some (m + 1) ∧
      ∀ rec ∈ df_RFV df,
        rec.Recencia = (m + 1) - custMaxDate df rec.id_cliente ∧
        custMaxDate df rec.id_cliente ≤ m ∧ 1 ≤ rec.Recencia := by
  obtain ⟨m, hm, hmem, hub⟩ := listMax_spec (df.map Compra.diaCompra) (by simpa using hdf)
  have hda : dia_atual df = some (m + 1) := by
    unfold dia_atual
    rw [hm]
    rfl
  refine ⟨m, hm, hmem, ?_, hda, ?_⟩
  · intro t ht
    exact hub t.diaCompra (List.mem_map_of_mem Compra.diaCompra ht)
  · intro rec hrec
    rw [df_RFV_eq_map df (m + 1) hda] at hrec
    obtain ⟨c, hc, rfl⟩ := List.mem_map.mp hrec
    obtain ⟨mc, hmc, hmcmem, -⟩ :=
      listMax_spec ((comprasDe df c).map Compra.diaCompra)
        (by simpa using comprasDe_ne_nil df c hc)
    have hcust : custMaxDate df c = mc := by
      unfold custMaxDate
      rw [hmc]
      rfl
    have hle : mc ≤ m := by
      obtain ⟨t, ht, htd⟩ := List.mem_map.mp hmcmem
      have htdf : t ∈ df := List.mem_of_mem_filter ht
      calc mc = t.diaCompra := htd.symm
        _ ≤ m := hub t.diaCompra (List.mem_map_of_mem Compra.diaCompra htdf)
    refine ⟨rfl, ?_, ?_⟩
    · simpa [hcust] using hle
    · simp only [hcust]
      omega

theorem foldl_add_valorTotal (l : List Compra) (a : ℚ) :
    l.foldl (fun acc t => acc + t.valorTotal) a = a + (l.map Compra.valorTotal).sum := by
  induction l generalizing a with
  | nil => simp
  | cons t ts ih =>
    simp only [List.foldl_cons, List.map_cons, List.sum_cons, ih (a + t.valorTotal)]
    ring

/-- C4: the value indicator of every row of the RFV table is the plain sum of
the `ValorTotal` amounts of exactly that customer's purchase rows, with no
rounding or normalization. -/
theorem valor_sum_of_customer (df : List Compra) (rec : RFVRecord) (hrec : rec ∈ df_RFV df) :
    rec.Valor = ((df.filter (fun t => t.id_cliente == rec.id_cliente)).map Compra.valorTotal).sum := by
  unfold df_RFV at hrec
  rcases hda : dia_atual df with - | d
  · rw [hda] at hrec
    cases hrec
  · rw [hda] at hrec
    obtain ⟨c, -, rfl⟩ := List.mem_map.mp hrec
    simp only [valor, comprasDe, foldl_add_valorTotal, zero_add]

/-- The purchase scenario of the specification: customer 1 buys on day 1 and
day 10, customer 2 buys on day 5. -/
def df0 : List Compra := [⟨1, 1, 101, 100⟩, ⟨1, 10, 102, 50⟩, ⟨2, 5, 103, 200⟩]

/-- Witness for C2 on the three-row scenario table. -/
theorem rfv_one_row_per_customer_witness :
    ((df_RFV df0).map RFVRecord.id_cliente).Nodup ∧
    (∀ c : ℕ, c ∈ (df_RFV df0).map RFVRecord.id_cliente ↔ ∃ t ∈ df0, t.id_cliente = c) ∧
    (∀ rec ∈ df_RFV df0, rec.Frequencia = df0.countP (fun t => t.id_cliente == rec.id_cliente)) :=
  rfv_one_row_per_customer df0 (by unfold df0; exact List.cons_ne_nil _ _)

/-- Witness for C3 on the three-row scenario table. -/
theorem recencia_reference_date_witness :
    ∃ m : ℤ, listMax (df0.map Compra.diaCompra) = some m ∧
      m ∈ df0.map Compra.diaCompra ∧ (∀ t ∈ df0, t.diaCompra ≤ m) ∧
      dia_atual df0 = some (m + 1) ∧
      ∀ rec ∈ df_RFV df0,
        rec.Recencia = (m + 1) - custMaxDate df0 rec.id_cliente ∧
        custMaxDate df0 rec.id_cliente ≤ m ∧ 1 ≤ rec.Recencia :=
  recencia_reference_date df0 (by unfold df0; exact List.cons_ne_nil _ _)

theorem df_RFV_df0 : df_RFV df0 = [⟨1, 1, 2, 150⟩, ⟨2, 6, 1, 200⟩] := by
  simp [df_RFV, df0, dia_atual, listMax, clientes, List.dedup, custMaxDate, comprasDe,
    frequencia, valor]
  norm_num

/-- Witness for C4 on the first row of the scenario RFV table: customer 1
spent 100 + 50 = 150. -/
theorem valor_sum_of_customer_witness :
    (⟨1, 1, 2, (150 : ℚ)⟩ : RFVRecord).Valor =
      ((df0.filter
          (fun t => t.id_cliente == (⟨1, 1, 2, (150 : ℚ)⟩ : RFVRecord).id_cliente)).map
        Compra.valorTotal).sum :=
  valor_sum_of_customer df0 ⟨1, 1, 2, (150 : ℚ)⟩
    (by rw [df_RFV_df0]; exact List.mem_cons_self _ _)

/-- Linear-interpolation quantile of a list of rationals, the method pandas
`DataFrame.quantile` uses on one column: sort, take position
`(n - 1) * p`, interpolate between the two neighbouring order statistics.
On an empty column pandas yields `NaN`; here the value 0 stands in for it
and is never consumed, because classification maps over the rows of the very
table the quantile was taken from. -/
def quantileLin (l : List ℚ) (p : ℚ) : ℚ :=
  match l.mergeSort (fun a b => a ≤ b) with
  | [] => 0
  | x :: xs =>
    let s := x :: xs
    let h : ℚ := ((s.length : ℚ) - 1) * p
    let i : ℕ := (Rat.floor h).toNat
    let lo := s.getD i 0
    let hi := s.getD (i + 1) lo
    lo + (hi - lo) * (h - (i : ℚ))

/-- Translation of `quartis = df_RFV.quantile([0.25, 0.5, 0.75])` followed by
`to_dict()` (source lines 217-219): per column, the three interpolated
percentiles over all rows of the RFV table. -/
def quartisDict (t : List RFVRecord) : String → QDict := fun col =>
  let vals : List ℚ :=
    if col = "Recencia" then t.map (fun r => (r.Recencia : ℚ))
    else if col = "Frequencia" then t.map (fun r => (r.Frequencia : ℚ))
    else if col = "Valor" then t.map RFVRecord.Valor
    else []
  ⟨quantileLin vals (1 / 4), quantileLin vals (1 / 2), quantileLin vals (3 / 4)⟩

/-- One row of `df_RFV` after the three classification columns were added
(source lines 222-234). -/
structure ClassifiedRecord where
  id_cliente : ℕ
  Recencia : ℤ
  Frequencia : ℕ
  Valor : ℚ
  R_quartil : String
  F_quartil : String
  V_quartil : String
  deriving DecidableEq

/-- Translation of the classification step (source lines 222-234): each row
gets `recencia_class` of its recency and `frequencia_class` of its frequency
and of its value, all against the quartile table of the whole RFV table. -/
def df_RFV_classificado (t : List RFVRecord) : List ClassifiedRecord :=
  let q := quartisDict t
  t.map (fun r =>
    ⟨r.id_cliente, r.Recencia, r.Frequencia, r.Valor,
      recencia_class (r.Recencia : ℚ) ("Recencia") q,
      frequencia_class (r.Frequencia : ℚ) ("Frequencia") q,
      frequencia_class r.Valor ("Valor") q⟩)

/-- The column data of one row of the classified `df_RFV` after
`set_index("ID_cliente")` (source line 215): `ID_cliente` is then the pandas
index, not a column, so it does not appear here. -/
structure LinhaRFV where
  Recencia : ℤ
  Frequencia : ℕ
  Valor : ℚ
  R_quartil : String
  F_quartil : String
  V_quartil : String
  deriving DecidableEq

/-- A pandas index label of the classified table: either a customer id (the
`ID_cliente` index set at source line 215) or a position of the `RangeIndex`
produced by `reset_index(drop=True)` (source line 67). -/
inductive Indice
  | cliente (c : ℕ)
  | posicao (i : ℕ)
  deriving DecidableEq

/-- Column data of an indexed table: its rows without their index labels. -/
def dados (l : List (Indice × LinhaRFV)) : List LinhaRFV :=
  l.map Prod.snd

/-- A fresh positional `RangeIndex` 0, 1, ... over a list of row data. -/
def reindexData (d : List LinhaRFV) : List (Indice × LinhaRFV) :=
  d.enum.map (fun p => (Indice.posicao p.1, p.2))

/-- Translation of `reset_index(drop=True)` (source line 67): the existing
index labels — the customer ids, at the call sites of lines 261-280 — are
discarded and replaced by positions. -/
def reset_index_drop (l : List (Indice × LinhaRFV)) : List (Indice × LinhaRFV) :=
  reindexData (dados l)

/-- Translation of `selecao_valores_categoricos(relatorio, col, selecionados,
verificacao)` (source lines 63-67): pass the table through unchanged when
`verificacao` holds, otherwise keep the rows whose column equals the selected
letter and then drop their index labels via `reset_index(drop=True)`. -/
def selecao_valores_categoricos (relatorio : List (Indice × LinhaRFV))
    (col : LinhaRFV → String) (selecionados : String) (verificacao : Bool) :
    List (Indice × LinhaRFV) :=
  if verificacao = true then relatorio
  else reset_index_drop (relatorio.filter (fun r => col r.2 == selecionados))

/-- Column data of one classified record, as it sits in the indexed table. -/
def linhaDe (r : ClassifiedRecord) : LinhaRFV :=
  ⟨r.Recencia, r.Frequencia, r.Valor, r.R_quartil, r.F_quartil, r.V_quartil⟩

/-- The classified table as the pandas object reaching line 261: rows of
column data labelled by the `ID_cliente` index. -/
def paraIndexada (t : List ClassifiedRecord) : List (Indice × LinhaRFV) :=
  t.map (fun r => (Indice.cliente r.id_cliente, linhaDe r))

/-- Translation of the triple `pipe` building `df_RFV1` (source lines
261-280): the three class filters applied in sequence to the indexed
classified table, each with `verificacao=False`. -/
def df_RFV1 (relatorio : List ClassifiedRecord) (sr sf sv : String) :
    List (Indice × LinhaRFV) :=
  selecao_valores_categoricos
    (selecao_valores_categoricos
      (selecao_valores_categoricos (paraIndexada relatorio) LinhaRFV.R_quartil sr false)
      LinhaRFV.F_quartil sf false)
    LinhaRFV.V_quartil sv false

theorem selecao_false (l : List (Indice × LinhaRFV)) (col : LinhaRFV → String) (s : String) :
    selecao_valores_categoricos l col s false =
      reset_index_drop (l.filter (fun r => col r.2 == s)) := by
  unfold selecao_valores_categoricos
  exact if_neg (by simp)

theorem dados_reindexData (d : List LinhaRFV) : dados (reindexData d) = d := by
  unfold dados reindexData
  rw [List.map_map]
  exact List.enum_map_snd d

theorem dados_filter (l : List (Indice × LinhaRFV)) (p : Indice × LinhaRFV → Bool)
    (q : LinhaRFV → Bool) (hpq : ∀ r : Indice × LinhaRFV, p r = q r.2) :
    dados (l.filter p) = (dados l).filter q := by
  induction l with
  | nil => rfl
  | cons r l ih =>
    simp only [dados, List.filter_cons, List.map_cons] at *
    rw [hpq r]
    cases q r.2 <;> simpa using ih

theorem reset_filter_reset (l : List (Indice × LinhaRFV)) (p : Indice × LinhaRFV → Bool)
    (q : LinhaRFV → Bool) (hpq : ∀ r : Indice × LinhaRFV, p r = q r.2) :
    reset_index_drop ((reset_index_drop l).filter p) = reset_index_drop (l.filter p) := by
  unfold reset_index_drop
  rw [dados_filter _ p q hpq, dados_filter _ p q hpq, dados_reindexData]

theorem dados_paraIndexada (t : List ClassifiedRecord) :
    dados (paraIndexada t) = t.map linhaDe := by
  unfold dados paraIndexada
  rw [List.map_map]
  rfl

/-- A one-customer classified table whose only row matches the selection
A/A/A: customer 7 with recency 1, frequency 2, value 150. -/
def t0 : List ClassifiedRecord := [⟨7, 1, 2, 150, "A", "A", "A"⟩]

/-- The column data of the single row of `t0`. -/
def linha0 : LinhaRFV := ⟨1, 2, 150, "A", "A", "A"⟩

/-- Counterexample to C8 as stated: on the one-row table `t0` every class
matches the selection A/A/A, yet the filtered table is not the matching
sublist of the classified table — the row comes back labelled by position 0,
its `ID_cliente` label 7 discarded by `reset_index(drop=True)`. -/
theorem df_RFV1_perde_indice :
    df_RFV1 t0 ("A") ("A") ("A") = [(Indice.posicao 0, linha0)] ∧
    (paraIndexada t0).filter
        (fun r => r.2.R_quartil == "A" && (r.2.F_quartil == "A" && r.2.V_quartil == "A")) =
      [(Indice.cliente 7, linha0)] ∧
    df_RFV1 t0 ("A") ("A") ("A") ≠
      (paraIndexada t0).filter
        (fun r => r.2.R_quartil == "A" && (r.2.F_quartil == "A" && r.2.V_quartil == "A")) := by
  refine ⟨rfl, rfl, ?_⟩
  intro h
  rw [show df_RFV1 t0 ("A") ("A") ("A") = [(Indice.posicao 0, linha0)] from rfl,
    show (paraIndexada t0).filter
        (fun r => r.2.R_quartil == "A" && (r.2.F_quartil == "A" && r.2.V_quartil == "A")) =
      [(Indice.cliente 7, linha0)] from rfl] at h
  simp at h

/-- C8 amended: the filtered table carries exactly the column data of those
rows of the classified table whose recency, frequency and value letters all
equal the corresponding selection, in their original order and with the
column values unchanged — but each filter application ends in
`reset_index(drop=True)`, so the `ID_cliente` labels are discarded and the
resulting rows are labelled by position 0, 1, ... instead. -/
theorem df_RFV1_filtra_dados_e_descarta_indice (relatorio : List ClassifiedRecord)
    (sr sf sv : String) :
    df_RFV1 relatorio sr sf sv =
      reindexData ((relatorio.map linhaDe).filter
        (fun r => r.R_quartil == sr && (r.F_quartil == sf && r.V_quartil == sv))) := by
  unfold df_RFV1
  rw [selecao_false, selecao_false, selecao_false,
    reset_filter_reset _ _ (fun r => r.F_quartil == sf) (fun r => rfl),
    reset_filter_reset _ _ (fun r => r.V_quartil == sv) (fun r => rfl)]
  unfold reset_index_drop
  rw [List.filter_filter, List.filter_filter,
    dados_filter _ _
      (fun r => (r.V_quartil == sv && r.F_quartil == sf) && r.R_quartil == sr)
      (fun r => rfl),
    dados_paraIndexada]
  congr 1
  congr 1
  funext r
  cases hr : r.R_quartil == sr <;> cases hf : r.F_quartil == sf <;>
    cases hv : r.V_quartil == sv <;> rfl

/-- Outcomes of one upload-processing pass.  The first two constructors are
the error classes the specification names; the third models a raw Python
exception escaping uncaught, which is the only failure mode present in the
source (it has no try/except, no `st.error`, and defines neither error
class). -/
inductive ProcError
  | InputFormatError
  | EmptyInputError
  | UncaughtException (msg : String)
  deriving DecidableEq

/-- Shape of an uploaded file: which of the four required columns are
present, whether the `DiaCompra` text parses as dates, and the well-formed
rows when everything is in place. -/
structure Upload where
  temIDCliente : Bool
  temDiaCompra : Bool
  temCodigoCompra : Bool
  temValorTotal : Bool
  datasParseaveis : Bool
  linhas : List Compra
  deriving DecidableEq

/-- Translation of the processing pass over an upload (source lines
134-234), fault branches in source order.  A missing `DiaCompra` makes
`pd.read_csv(..., parse_dates=["DiaCompra"])` (line 136) raise an uncaught
ValueError; unparseable dates leave the column as strings and line 173
(`max() + pd.Timedelta(days=1)`) raises an uncaught TypeError; a missing
`ID_cliente`, `CodigoCompra` or `ValorTotal` raises an uncaught KeyError at
the first bracket access (lines 176, 192, 201).  No branch of the source
constructs or reports an `InputFormatError` or `EmptyInputError`. -/
def processaUpload (u : Upload) : Except ProcError (List ClassifiedRecord) :=
  if u.temDiaCompra = false then
    Except.error (ProcError.UncaughtException ("ValueError"))
  else if u.datasParseaveis = false then
    Except.error (ProcError.UncaughtException ("TypeError"))
  else if u.temIDCliente = false then
    Except.error (ProcError.UncaughtException ("KeyError"))
  else if u.temCodigoCompra = false then
    Except.error (ProcError.UncaughtException ("KeyError"))
  else if u.temValorTotal = false then
    Except.error (ProcError.UncaughtException ("KeyError"))
  else
    Except.ok (df_RFV_classificado (df_RFV u.linhas))

/-- A one-row upload whose `ID_cliente` column is absent. -/
def uploadSemIDCliente : Upload := ⟨false, true, true, true, true, [⟨1, 1, 101, 100⟩]⟩

/-- Counterexample to C6 as stated: on an upload missing the `ID_cliente`
column the pass ends in an uncaught KeyError, not in a reported
`InputFormatError`. -/
theorem processaUpload_not_InputFormatError :
    processaUpload uploadSemIDCliente = Except.error (ProcError.UncaughtException ("KeyError")) ∧
    processaUpload uploadSemIDCliente ≠ Except.error ProcError.InputFormatError := by
  constructor
  · rfl
  · intro h
    rw [show processaUpload uploadSemIDCliente =
        Except.error (ProcError.UncaughtException ("KeyError")) from rfl] at h
    simp at h

/-- C6 amended: whenever a required column is absent or the dates cannot be
parsed, the pass aborts with an uncaught exception — the source defines no
`InputFormatError` — and no indicator or classified table is produced. -/
theorem upload_malformado_excecao (u : Upload)
    (h : u.temIDCliente = false ∨ u.temDiaCompra = false ∨ u.temCodigoCompra = false ∨
      u.temValorTotal = false ∨ u.datasParseaveis = false) :
    ∃ msg : String, processaUpload u = Except.error (ProcError.UncaughtException msg) := by
  unfold processaUpload
  split_ifs <;> first
    | exact ⟨_, rfl⟩
    | simp_all

/-- Witness for the amended C6 at the upload missing `ID_cliente`. -/
theorem upload_malformado_excecao_witness :
    ∃ msg : String,
      processaUpload uploadSemIDCliente = Except.error (ProcError.UncaughtException msg) :=
  upload_malformado_excecao uploadSemIDCliente (Or.inl rfl)

/-- An upload with all columns present, parseable dates and zero rows. -/
def uploadVazio : Upload := ⟨true, true, true, true, true, []⟩

/-- Counterexample to C7 as stated: on the zero-transaction upload the pass
does not fail with an `EmptyInputError`; it returns an empty classified
table. -/
theorem processaUpload_vazio_not_EmptyInputError :
    processaUpload uploadVazio = Except.ok [] ∧
    processaUpload uploadVazio ≠ Except.error ProcError.EmptyInputError := by
  constructor
  · rfl
  · intro h
    rw [show processaUpload uploadVazio = Except.ok [] from rfl] at h
    simp at h

/-- C7 amended: on a well-formed upload with zero transaction rows the pass
completes without raising — the quantiles are taken but classification maps
over no rows — and silently produces an empty classified table; no
`EmptyInputError` exists in the source. -/
theorem upload_vazio_tabela_vazia (u : Upload) (hl : u.linhas = [])
    (h1 : u.temIDCliente = true) (h2 : u.temDiaCompra = true)
    (h3 : u.temCodigoCompra = true) (h4 : u.temValorTotal = true)
    (h5 : u.datasParseaveis = true) :
    processaUpload u = Except.ok [] := by
  unfold processaUpload
  rw [h1, h2, h3, h4, h5, hl]
  rfl

/-- Witness for the amended C7 at the concrete empty upload. -/
theorem upload_vazio_tabela_vazia_witness :
    processaUpload uploadVazio = Except.ok [] :=
  upload_vazio_tabela_vazia uploadVazio rfl rfl rfl rfl rfl rfl

/-- The session dictionary `st.session_state["comentarios_rfv"]` (source
lines 81-82): a finite map from composite three-letter codes to comment
text, modelled extensionally. -/
def CommentMap : Type := String → Option String

/-- Translation of the submit action (source lines 348-350):
`st.session_state["comentarios_rfv"][rfv_score_atual] = comentario_input`. -/
def submitComentario (m : CommentMap) (k v : String) : CommentMap :=
  fun x => if x = k then some v else m x

/-- Translation of the erase action (source lines 352-354):
`st.session_state["comentarios_rfv"].pop(rfv_score_atual, None)`. -/
def popComentario (m : CommentMap) (k : String) : CommentMap :=
  fun x => if x = k then none else m x

/-- Translation of the clear-all button (source lines 436-441):
`st.session_state.pop("comentarios_rfv", None)` removes the whole
dictionary, and the guard of source lines 81-82 recreates it empty on the
next run. -/
def limparComentarios (_ : CommentMap) : CommentMap :=
  fun _ => none

/-- C9: submitting a comment under one composite code and then popping only
that code leaves the entry of every other code as it was, and the clear-all
action leaves the comment map empty at every code. -/
theorem comentarios_frame (m : CommentMap) (k v k2 : String) (h : k2 ≠ k) :
    popComentario (submitComentario m k v) k k2 = m k2 ∧
    ∀ x : String, limparComentarios m x = none := by
  constructor
  · simp [popComentario, submitComentario, h]
  · intro x
    rfl

/-- Witness for C9: starting from the empty map, store a comment under
"AAA", pop "AAA", and look up "ABB". -/
theorem comentarios_frame_witness :
    popComentario (submitComentario (fun _ => none) ("AAA") ("perfil prioritario")) ("AAA")
        ("ABB") = (fun _ : String => none) ("ABB") ∧
    ∀ x : String, limparComentarios (fun _ => none) x = none :=
  comentarios_frame (fun _ => none) ("AAA") ("perfil prioritario") ("ABB") (by decide)
